import Mathlib

/-!
Verification of the streaming session synchronizer of the AgentChatV2
frontend (`chat.service.ts`, `session-state.service.ts`,
`chat.component.ts`).

The embedding is shallow: the TypeScript classes become Lean structures,
their methods become pure state-transformer functions, JavaScript `Map` /
`Set` become association lists / lists, RxJS subjects become either counters
of published events (the refresh bus) or direct synchronous invocation of
the registered handlers (subjects deliver synchronously to current
subscribers).  `JSON.parse` is a browser builtin that is not part of the
repository, so the stream decoder is parameterized by an arbitrary
record-body parser `p : List Char → Option StreamChunk`; `try { JSON.parse }
catch { skip }` is the `Option` returned by `p`.  Byte chunks are modelled
as character lists: `TextDecoder.decode(value, {stream:true})` guarantees
the decoded character stream is independent of byte-level chunk boundaries,
so chunk-splitting is modelled at the character level.
-/

namespace AgentChat

/-- JavaScript truthiness of a `string | undefined` value:
`undefined` and the empty string are falsy. -/
def jsTruthy : Option String → Bool
  | none => false
  | some s => s ≠ ""

/-- JavaScript `a || b` for `a : string | undefined`, `b` a string:
returns `b` when `a` is `undefined` or empty. -/
def jsOr (a : Option String) (b : String) : String :=
  match a with
  | none => b
  | some s => if s = "" then b else s

/-- JavaScript `s.trim()`. -/
def jsTrim (s : String) : String :=
  String.mk
    (((s.data.dropWhile Char.isWhitespace).reverse.dropWhile
      Char.isWhitespace).reverse)

/-- JavaScript `s.startsWith(pre)`. -/
def jsStartsWith (s pre : String) : Bool :=
  pre.data.isPrefixOf s.data

/-- JavaScript `s.substring(0, n)`. -/
def jsSubstring (s : String) (n : Nat) : String :=
  String.mk (s.data.take n)

/-! ## Stream Decoder (`ChatService.streamChat`, chat.service.ts 181–229)

The decode loop keeps a string `buffer`; for each arriving chunk it executes

```
buffer += decoder.decode(value, { stream: true });
const lines = buffer.split('\n\n');
buffer = lines.pop() || '';
for (const line of lines) {
  if (line.startsWith('data: ')) {
    try { subject.next(JSON.parse(line.slice(6))) } catch { /* skip */ }
  }
}
```

`scan` is JavaScript `s.split('\n\n')` presented as
(complete pieces, trailing piece): `scan s = (ps, r)` means
`s.split('\n\n') = ps ++ [r]`.  The split is greedy left-to-right and
non-overlapping, which the two-character pattern match reproduces. -/

/-- JavaScript `s.split('\n\n')`, split as (all pieces but the last, last
piece).  In the decoder the last piece becomes the retained buffer. -/
def scan : List Char → List (List Char) × List Char
  | [] => ([], [])
  | [c] => ([], [c])
  | c₁ :: c₂ :: rest =>
    if c₁ = '\n' ∧ c₂ = '\n' then
      ([] :: (scan rest).1, (scan rest).2)
    else
      match scan (c₂ :: rest) with
      | ([], buf) => ([], c₁ :: buf)
      | (p :: ps, buf) => ((c₁ :: p) :: ps, buf)

/-! ## Protocol events (`StreamChunk`, chat.service.ts 57–73) -/

/-- The `type` discriminator of a decoded record. -/
inductive ChunkType where
  | content
  | agent_start
  | agent_end
  | error
  | done
  | chatter
  deriving DecidableEq, Repr

/-- The `chatter_type` sub-kind of a chatter record. -/
inductive ChatterType where
  | thinking
  | tool_call
  | tool_result
  | delegation
  | content
  deriving DecidableEq, Repr

/-- One decoded protocol event (`StreamChunk` interface).  Optional fields
are `Option`; `tool_args : Record<string, unknown>` and
`metadata : Record<string, unknown>` are opaque payloads carried through
unchanged, modelled as opaque strings. -/
structure StreamChunk where
  type : ChunkType
  agentId : Option String := none
  agentName : Option String := none
  content : Option String := none
  session_id : Option String := none
  metadata : Option String := none
  chatter_type : Option ChatterType := none
  agent_name : Option String := none
  tool_name : Option String := none
  tool_args : Option String := none
  duration_ms : Option Nat := none
  tokens_input : Option Nat := none
  tokens_output : Option Nat := none
  friendly_message : Option String := none
  deriving DecidableEq, Repr

/-- The `data: ` marker that prefixes each record's payload line. -/
def dataMarker : List Char := "data: ".toList

/-- Per complete line: `if (line.startsWith('data: ')) try { emit
JSON.parse(line.slice(6)) } catch { skip }`.  `p` stands for the external
`JSON.parse` builtin returning `none` on a parse failure. -/
def emitLine (p : List Char → Option StreamChunk) (line : List Char) :
    Option StreamChunk :=
  if line.take 6 = dataMarker then p (line.drop 6) else none

/-- One iteration of the decode loop for an arrived chunk: append to the
buffer, split on blank lines, retain the trailing piece as the new buffer,
and emit (in order) each complete line that parses. -/
def stepChunk (p : List Char → Option StreamChunk) (buffer chunk : List Char) :
    List StreamChunk × List Char :=
  let r := scan (buffer ++ chunk)
  (r.1.filterMap (emitLine p), r.2)

/-- The whole decode loop over a finite sequence of arriving chunks,
starting from a given buffer.  Returns the emitted events in emission order
and the final (discarded) buffer remainder. -/
def runChunks (p : List Char → Option StreamChunk) (buffer : List Char) :
    List (List Char) → List StreamChunk × List Char
  | [] => ([], buffer)
  | c :: cs =>
    let r := stepChunk p buffer c
    let r' := runChunks p r.2 cs
    (r.1 ++ r'.1, r'.2)

/-- The event sequence the decoder emits for a chunked stream (the final
unterminated buffer remainder is discarded, as in the source). -/
def decode (p : List Char → Option StreamChunk) (chunks : List (List Char)) :
    List StreamChunk :=
  (runChunks p [] chunks).1

/-! ## Data model (`Session`, `Message`, chat.service.ts 16–34) -/

/-- The `role` field of a message. -/
inductive Role where
  | user
  | assistant
  | system
  deriving DecidableEq, Repr

/-- A session descriptor (`Session` interface; the optional `documents`
field is never touched by the modelled code and is omitted). -/
structure Session where
  id : String
  title : String
  orchestrationType : String
  selectedAgents : List String
  createdAt : String
  lastMessageAt : String
  messageCount : Nat
  deriving DecidableEq, Repr

/-- An agent's accumulated response inside a streaming message
(`{ agentName: string; content: string }`). -/
structure AgentResponse where
  agentName : String
  content : String
  deriving DecidableEq, Repr

/-- A chatter entry stored on the streaming message (`ChatterEvent`
interface, chat.component.ts 15–26). -/
structure ChatterEvent where
  type : ChatterType
  agentName : String
  content : String
  toolName : Option String
  toolArgs : Option String
  timestamp : Nat
  durationMs : Option Nat
  tokensInput : Option Nat
  tokensOutput : Option Nat
  friendlyMessage : Option String
  deriving DecidableEq, Repr

/-- A chat message as displayed (`Message` extended by `DisplayMessage`
with the optional streaming fields). -/
structure Message where
  id : String
  sessionId : String
  role : Role
  content : String
  timestamp : String
  isStreaming : Option Bool := none
  agentResponses : Option (List AgentResponse) := none
  chatterEvents : Option (List ChatterEvent) := none
  deriving DecidableEq, Repr

/-! ## Association lists (JavaScript `Map`) and lists (JavaScript `Set`) -/

/-- `Map.get`: first entry with the given key. -/
def lookupKV {α : Type} (k : String) (m : List (String × α)) : Option α :=
  (m.find? (fun p => p.1 == k)).map (·.2)

/-- `Map.set`: replace in place when the key is present (JavaScript `Map`
keeps the original insertion position), else append. -/
def setKV {α : Type} (k : String) (v : α) (m : List (String × α)) :
    List (String × α) :=
  if m.any (fun p => p.1 == k) then
    m.map (fun p => if p.1 == k then (k, v) else p)
  else m ++ [(k, v)]

/-- `Map.delete`. -/
def eraseKV {α : Type} (k : String) (m : List (String × α)) :
    List (String × α) :=
  m.filter (fun p => p.1 != k)

/-- `Set.add`: appends unless present (JavaScript `Set` keeps insertion
order and deduplicates). -/
def setAdd (x : String) (s : List String) : List String :=
  if x ∈ s then s else s ++ [x]

/-! ## Session Identity Broker (`SessionStateService`,
session-state.service.ts)

The observable state of the service.  `sessionsRefresh$` is a
`Subject<void>` (the Refresh Bus): its observable effect is the number of
`next()` publishes, counted by `refreshCount`.  `pendingSession$` and
`activeSessionId$` are `BehaviorSubject`s whose observable effect is their
current value. -/
structure SessionState where
  activeSessionId : Option String := none
  refreshCount : Nat := 0
  pendingSession : Option Session := none
  pendingToRealMap : List (String × String) := []
  cachedMessages : List (String × List Message) := []
  activeNewSessionStreams : List String := []
  deriving DecidableEq, Repr

/-- `setActiveSession(sessionId)`. -/
def setActiveSession (sessionId : Option String) (st : SessionState) :
    SessionState :=
  { st with activeSessionId := sessionId }

/-- `refreshSessions()`: publish on the Refresh Bus. -/
def refreshSessions (st : SessionState) : SessionState :=
  { st with refreshCount := st.refreshCount + 1 }

/-- `setPendingSession(session)`. -/
def setPendingSession (session : Option Session) (st : SessionState) :
    SessionState :=
  { st with pendingSession := session }

/-- `clearPendingSession()`. -/
def clearPendingSession (st : SessionState) : SessionState :=
  { st with pendingSession := none }

/-- `mapPendingToReal(pendingId, realId)`. -/
def mapPendingToReal (pendingId realId : String) (st : SessionState) :
    SessionState :=
  { st with pendingToRealMap := setKV pendingId realId st.pendingToRealMap }

/-- `getRealSessionId(pendingId)`. -/
def getRealSessionId (pendingId : String) (st : SessionState) :
    Option String :=
  lookupKV pendingId st.pendingToRealMap

/-- `clearPendingMapping(pendingId)`. -/
def clearPendingMapping (pendingId : String) (st : SessionState) :
    SessionState :=
  { st with pendingToRealMap := eraseKV pendingId st.pendingToRealMap }

/-- `cacheMessages(sessionId, messages)`. -/
def cacheMessages (sessionId : String) (messages : List Message)
    (st : SessionState) : SessionState :=
  { st with cachedMessages := setKV sessionId messages st.cachedMessages }

/-- `popCachedMessages(sessionId)`: get and clear.  (An empty cached array
is truthy in JavaScript, so any present entry is deleted on read.) -/
def popCachedMessages (sessionId : String) (st : SessionState) :
    Option (List Message) × SessionState :=
  match lookupKV sessionId st.cachedMessages with
  | some messages =>
    (some messages,
      { st with cachedMessages := eraseKV sessionId st.cachedMessages })
  | none => (none, st)

/-- `registerActiveStream(pendingId)`. -/
def registerActiveStream (pendingId : String) (st : SessionState) :
    SessionState :=
  { st with
    activeNewSessionStreams := setAdd pendingId st.activeNewSessionStreams }

/-- `hasActiveStream(pendingId)`. -/
def hasActiveStream (pendingId : String) (st : SessionState) : Bool :=
  pendingId ∈ st.activeNewSessionStreams

/-- `handleNewSessionComplete(pendingId, realSessionId)` — the callback the
service registers with `ChatService.onNewSessionComplete` in its
constructor (session-state.service.ts 29–50). -/
def handleNewSessionComplete (pendingId realSessionId : String)
    (st : SessionState) : SessionState :=
  if pendingId ∈ st.activeNewSessionStreams then
    refreshSessions <| clearPendingSession <|
      mapPendingToReal pendingId realSessionId
        { st with
          activeNewSessionStreams :=
            st.activeNewSessionStreams.filter (fun x => x != pendingId) }
  else st

/-- `completeNewSession(pendingId, realSessionId, messages)`
(session-state.service.ts 178–203): the resolve operation. -/
def completeNewSession (pendingId realSessionId : String)
    (messages : List Message) (st : SessionState) : SessionState :=
  if pendingId ∈ st.activeNewSessionStreams then
    let st₁ :=
      { st with
        activeNewSessionStreams :=
          st.activeNewSessionStreams.filter (fun x => x != pendingId) }
    let st₂ := mapPendingToReal pendingId realSessionId st₁
    let st₃ :=
      if messages.length > 0 then cacheMessages realSessionId messages st₂
      else st₂
    refreshSessions (clearPendingSession st₃)
  else st

/-- The pending-id redirect branch at the start of
`ChatComponent.loadSession` (chat.component.ts 504–520): when the route
shows a pending id that has been resolved, delete the mapping and navigate
to the real id (returned as the second component). -/
def loadSessionPending (st : SessionState) (sid : String) :
    SessionState × Option String :=
  if jsStartsWith sid "pending-" then
    let realId := getRealSessionId sid st
    if jsTruthy realId then (clearPendingMapping sid st, realId)
    else (st, none)
  else (st, none)

/-! ## Turn Orchestrator (`ChatComponent`, chat.component.ts)

The component's relevant fields, the broker, and the navigations performed
form a `World`.  The RxJS plumbing is modelled by synchronous delivery: for
every record the decode loop parses, `subject.next(data)` first runs the
component's `next` handler (`handleStreamChunk`) when its subscription is
still open, and then `streamChat` notifies the registered
`newSessionComplete` callbacks — in the application the single registered
callback is `SessionStateService.handleNewSessionComplete` (registered in
its constructor).  A new-session turn subscribes without
`takeUntil(destroy$)` (chat.component.ts 699–701), so its handler keeps
running after the component is destroyed; an existing-session turn's
subscription is severed by destruction. -/

/-- The fields of `ChatComponent` the streaming logic reads or writes. -/
structure ComponentState where
  sessionId : Option String := none
  session : Option Session := none
  messages : List Message := []
  selectedAgentIds : List String := []
  orchestrationType : String := "sequential"
  isSending : Bool := false
  streamingMessage : Option Message := none
  shouldScroll : Bool := false
  currentPendingId : Option String := none
  destroyed : Bool := false
  deriving DecidableEq, Repr

/-- Component, broker and the navigations performed so far. -/
structure World where
  comp : ComponentState := {}
  sess : SessionState := {}
  nav : List String := []
  deriving DecidableEq, Repr

/-- What one call to `ChatService.sendMessage` captures for the lifetime of
the turn: whether the turn was started without a target session, and the
`pendingSessionId` put into the request. -/
structure TurnCtx where
  isNewSession : Bool := false
  pendingSessionId : Option String := none
  deriving DecidableEq, Repr

/-- `lastResponse.content += delta` on the final element of
`agentResponses`. -/
def appendToLast : List AgentResponse → String → List AgentResponse
  | [], _ => []
  | [a], d => [{ a with content := a.content ++ d }]
  | a :: a' :: as, d => a :: appendToLast (a' :: as) d

/-- `ChatComponent.handleStreamChunk(chunk, isNewSession)`
(chat.component.ts 728–816).  `now` stands for `Date.now()` used as the
chatter timestamp. -/
def handleStreamChunk (chunk : StreamChunk) (isNewSession : Bool)
    (now : Nat) (w : World) : World :=
  if chunk.type = .done ∧ isNewSession ∧ jsTruthy chunk.session_id then
    let newSessionId := chunk.session_id.getD ""
    let w₁ :=
      if jsTruthy w.comp.currentPendingId then
        let messagesToCache := w.comp.messages ++
          (match w.comp.streamingMessage with
            | some m => [{ m with isStreaming := some false }]
            | none => [])
        { w with
          sess := completeNewSession (w.comp.currentPendingId.getD "")
            newSessionId messagesToCache w.sess,
          comp := { w.comp with currentPendingId := none } }
      else w
    if ¬ jsTruthy w₁.comp.sessionId ∨
        jsStartsWith (w₁.comp.sessionId.getD "") "pending-" then
      { w₁ with
        comp := { w₁.comp with sessionId := some newSessionId },
        nav := w₁.nav ++ [newSessionId] }
    else w₁
  else
    match w.comp.streamingMessage with
    | none => w
    | some sm =>
      let w' :=
        match chunk.type with
        | ChunkType.chatter =>
          let ev : ChatterEvent :=
            { type := chunk.chatter_type.getD ChatterType.thinking,
              agentName := jsOr chunk.agent_name "Agent",
              content := jsOr chunk.content "",
              toolName := chunk.tool_name,
              toolArgs := chunk.tool_args,
              timestamp := now,
              durationMs := chunk.duration_ms,
              tokensInput := chunk.tokens_input,
              tokensOutput := chunk.tokens_output,
              friendlyMessage := chunk.friendly_message }
          { w with comp := { w.comp with
              streamingMessage := some { sm with
                chatterEvents := some ((sm.chatterEvents.getD []) ++ [ev]) } } }
        | ChunkType.agent_start =>
          { w with comp := { w.comp with
              streamingMessage := some { sm with
                agentResponses := some ((sm.agentResponses.getD []) ++
                  [({ agentName := jsOr chunk.agentName "Agent",
                      content := "" } : AgentResponse)]) } } }
        | ChunkType.content =>
          let delta := jsOr chunk.content ""
          let sm₁ :=
            match sm.agentResponses with
            | some ars =>
              if ars.length > 0 then
                { sm with agentResponses := some (appendToLast ars delta) }
              else sm
            | none => sm
          { w with comp := { w.comp with
              streamingMessage := some
                { sm₁ with content := sm₁.content ++ delta } } }
        | ChunkType.done =>
          if (match w.comp.session with
              | some s => jsStartsWith s.title "Document:"
              | none => false) then
            { w with sess := refreshSessions w.sess }
          else w
        | ChunkType.error => w
        | ChunkType.agent_end => w
      { w' with comp := { w'.comp with shouldScroll := true } }

/-- `ChatComponent.sendMessage(content)` (chat.component.ts 641–726) up to
the point where the request is issued.  `now` stands for `Date.now()` and
`nowIso` for `new Date().toISOString()`.  Returns `none` when the guard
rejected the submission (empty text or a send already in flight). -/
def sendMessage (content : String) (now : Nat) (nowIso : String)
    (w : World) : World × Option TurnCtx :=
  if jsTrim content = "" ∨ w.comp.isSending then (w, none)
  else
    let comp₀ := { w.comp with isSending := true }
    let isNewSession := ¬ jsTruthy w.comp.sessionId
    let pendingId := "pending-" ++ toString now
    let cs :=
      if isNewSession then
        let title :=
          if content.length > 30 then jsSubstring content 30 ++ "..." else content
        ({ comp₀ with currentPendingId := some pendingId },
          setPendingSession (some
            { id := pendingId, title := title,
              orchestrationType := w.comp.orchestrationType,
              selectedAgents := w.comp.selectedAgentIds,
              createdAt := nowIso, lastMessageAt := nowIso,
              messageCount := 1 })
            (registerActiveStream pendingId w.sess))
      else (comp₀, w.sess)
    let userMessage : Message :=
      { id := "temp-" ++ toString now,
        sessionId := jsOr w.comp.sessionId "",
        role := Role.user, content := content, timestamp := nowIso }
    let comp₂ := { cs.1 with
      messages := cs.1.messages ++ [userMessage],
      shouldScroll := true,
      streamingMessage := some
        { id := "streaming", sessionId := jsOr w.comp.sessionId "",
          role := Role.assistant, content := "", timestamp := nowIso,
          isStreaming := some true, agentResponses := some [],
          chatterEvents := some [] } }
    ({ w with comp := comp₂, sess := cs.2 },
      some { isNewSession := isNewSession,
             pendingSessionId := comp₂.currentPendingId })

/-- Delivery of one decoded record by the decode loop
(chat.service.ts 197–227): `subject.next(data)` runs the component's
handler when its subscription is open, then — for a `done` record of a turn
that carries a `pendingSessionId` and a `session_id` — the service notifies
the `newSessionComplete` callbacks, i.e.
`SessionStateService.handleNewSessionComplete`. -/
def deliverChunk (ctx : TurnCtx) (now : Nat) (w : World)
    (chunk : StreamChunk) : World :=
  let w₁ :=
    if ctx.isNewSession ∨ ¬ w.comp.destroyed then
      handleStreamChunk chunk ctx.isNewSession now w
    else w
  if chunk.type = .done ∧ jsTruthy ctx.pendingSessionId ∧
      jsTruthy chunk.session_id then
    { w₁ with
      sess := handleNewSessionComplete (ctx.pendingSessionId.getD "")
        (chunk.session_id.getD "") w₁.sess }
  else w₁

/-- Deliver a whole decoded event sequence in arrival order. -/
def deliverChunks (ctx : TurnCtx) (now : Nat) (w : World)
    (chunks : List StreamChunk) : World :=
  chunks.foldl (deliverChunk ctx now) w

/-- The subscription's `complete` handler (chat.component.ts 714–724): stop
sending and finalize the streaming message into the message list.  Runs
only while the subscription is open. -/
def onStreamComplete (ctx : TurnCtx) (w : World) : World :=
  if ctx.isNewSession ∨ ¬ w.comp.destroyed then
    let comp₁ := { w.comp with isSending := false }
    match comp₁.streamingMessage with
    | some m =>
      { w with comp := { comp₁ with
          messages := comp₁.messages ++ [{ m with isStreaming := some false }],
          streamingMessage := none } }
    | none => { w with comp := comp₁ }
  else w

/-- `ngOnDestroy` as far as the streaming logic is concerned: the view is
torn down (`destroy$` fires, severing only `takeUntil(destroy$)`
subscriptions). -/
def destroyComponent (w : World) : World :=
  { w with comp := { w.comp with destroyed := true } }

/-! ## Concrete scenario runs

A fresh world (no route session id), one submission "Hello" at
`Date.now() = 1`, pending id `pending-1`. -/

/-- Scenario submission: `sendMessage("Hello")` on a fresh world. -/
def submitA : World × Option TurnCtx := sendMessage "Hello" 1 "T0" {}

/-- The turn context captured by the submission. -/
def turnA : TurnCtx := submitA.2.getD {}

/-- The `content "Hi"` event. -/
def contentHi : StreamChunk := { type := ChunkType.content, content := some "Hi" }

/-- The `done` event carrying `session_id = "S9"`. -/
def doneS9 : StreamChunk := { type := ChunkType.done, session_id := some "S9" }

/-- Scenario A: the stream yields `content "Hi"` then `done("S9")`. -/
def scenarioA : World := deliverChunks turnA 2 submitA.1 [contentHi, doneS9]

/-- Scenario B: the initiating view is destroyed after the `content` event
and before `done`. -/
def scenarioB : World :=
  deliverChunk turnA 2
    (destroyComponent (deliverChunk turnA 2 submitA.1 contentHi)) doneS9

/-- The `error "boom"` event. -/
def errorBoom : StreamChunk := { type := ChunkType.error, content := some "boom" }

/-- Scenario D: the stream yields `content "Hi"` then `error "boom"` with no
`done`, and then the underlying byte stream closes (the subscription's
`complete` handler runs). -/
def scenarioD : World :=
  onStreamComplete turnA (deliverChunks turnA 2 submitA.1 [contentHi, errorBoom])

/-- Scenario C's event sequence: two agents each contributing one content
delta, then a `done` with no session id. -/
def chunksC : List StreamChunk :=
  [{ type := ChunkType.agent_start, agentName := some "Researcher" },
   { type := ChunkType.content, content := some "foo" },
   { type := ChunkType.agent_start, agentName := some "Writer" },
   { type := ChunkType.content, content := some "bar" },
   { type := ChunkType.done }]

/-- Scenario C: the per-agent attribution run. -/
def scenarioC : World := deliverChunks turnA 0 submitA.1 chunksC

/-- A state whose Pending Session Slot holds a descriptor for `pending-2`
while `pending-1` is the registered in-flight pending id. -/
def slotOtherSession : Session :=
  { id := "pending-2", title := "other", orchestrationType := "sequential",
    selectedAgents := [], createdAt := "T0", lastMessageAt := "T0",
    messageCount := 1 }

/-- State for the frame-condition counterexample. -/
def stSlotOther : SessionState :=
  { pendingSession := some slotOtherSession,
    activeNewSessionStreams := ["pending-1"] }

/-- A concrete record-body parser standing in for `JSON.parse`:
`"1"` is a content record, `"2"` a done record, anything else malformed. -/
def parse₀ : List Char → Option StreamChunk := fun l =>
  if l = ['1'] then some { type := ChunkType.content, content := some "one" }
  else if l = ['2'] then some { type := ChunkType.done } else none

/-! ## Lemmas -/

@[simp] theorem scan_nil : scan [] = ([], []) := rfl

@[simp] theorem scan_single (c : Char) : scan [c] = ([], [c]) := rfl

theorem scan_cons₂ (c₁ c₂ : Char) (rest : List Char) :
    scan (c₁ :: c₂ :: rest) =
      if c₁ = '\n' ∧ c₂ = '\n' then
        ([] :: (scan rest).1, (scan rest).2)
      else
        match scan (c₂ :: rest) with
        | ([], buf) => ([], c₁ :: buf)
        | (p :: ps, buf) => ((c₁ :: p) :: ps, buf) := by
  rw [scan]

/-- When the split finds no delimiter, the trailing piece is the whole
input. -/
theorem scan_no_piece : ∀ s : List Char, (scan s).1 = [] → (scan s).2 = s
  | [], _ => rfl
  | [c], _ => rfl
  | c₁ :: c₂ :: rest, h => by
    rw [scan_cons₂] at *
    by_cases hnl : c₁ = '\n' ∧ c₂ = '\n'
    · simp [hnl] at h
    · simp only [if_neg hnl] at h ⊢
      rcases hS : scan (c₂ :: rest) with ⟨ps, buf⟩
      cases ps with
      | nil =>
        have h2 := scan_no_piece (c₂ :: rest) (by rw [hS])
        rw [hS] at h2
        have hb : buf = c₂ :: rest := h2
        simp [hS, hb]
      | cons p ps' => simp [hS] at h

/-- The trailing piece of a split contains no delimiter: splitting it again
yields it unchanged. -/
theorem scan_snd_stable : ∀ s : List Char, scan ((scan s).2) = ([], (scan s).2)
  | [] => rfl
  | [c] => rfl
  | c₁ :: c₂ :: rest => by
    rw [scan_cons₂]
    by_cases hnl : c₁ = '\n' ∧ c₂ = '\n'
    · simpa [hnl] using scan_snd_stable rest
    · simp only [if_neg hnl]
      rcases hS : scan (c₂ :: rest) with ⟨ps, buf⟩
      cases ps with
      | nil =>
        have hb : buf = c₂ :: rest := by
          have := scan_no_piece (c₂ :: rest) (by rw [hS])
          rw [hS] at this; exact this
        subst hb
        simp only
        rw [scan_cons₂, if_neg hnl, hS]
      | cons p ps' =>
        have := scan_snd_stable (c₂ :: rest)
        rw [hS] at this
        simpa using this

/-- Splitting a concatenation: the pieces of `a ++ b` are the complete
pieces of `a` followed by the pieces of (trailing piece of `a` ++ `b`).
This is the heart of chunk-boundary invariance: appending a new chunk to
the retained buffer and re-splitting continues the global split exactly. -/
theorem scan_append : ∀ a b : List Char,
    scan (a ++ b) =
      ((scan a).1 ++ (scan ((scan a).2 ++ b)).1, (scan ((scan a).2 ++ b)).2)
  | [], b => by simp
  | [c], b => by simp
  | c₁ :: c₂ :: rest, b => by
    by_cases hnl : c₁ = '\n' ∧ c₂ = '\n'
    · have ih := scan_append rest b
      rw [List.cons_append, List.cons_append, scan_cons₂, if_pos hnl, ih,
        scan_cons₂, if_pos hnl]
      simp
    · rcases hS : scan (c₂ :: rest) with ⟨ps, buf⟩
      cases ps with
      | nil =>
        have hb : buf = c₂ :: rest := by
          have h2 := scan_no_piece (c₂ :: rest) (by rw [hS])
          rw [hS] at h2; exact h2
        subst hb
        have hA : scan (c₁ :: c₂ :: rest) = ([], c₁ :: c₂ :: rest) := by
          rw [scan_cons₂, if_neg hnl, hS]
        rw [hA]
        simp
      | cons p ps' =>
        have ih := scan_append (c₂ :: rest) b
        rw [List.cons_append, hS] at ih
        have hA : scan (c₁ :: c₂ :: rest) = ((c₁ :: p) :: ps', buf) := by
          rw [scan_cons₂, if_neg hnl, hS]
        rw [List.cons_append, List.cons_append, scan_cons₂, if_neg hnl, ih,
          hA]
        simp

/-- Running the decode loop from a delimiter-free buffer is the same as
splitting the buffer plus the concatenation of all chunks in one go. -/
theorem runChunks_eq_scan (p : List Char → Option StreamChunk) :
    ∀ (cs : List (List Char)) (buffer : List Char),
      scan buffer = ([], buffer) →
      runChunks p buffer cs =
        ((scan (buffer ++ cs.flatten)).1.filterMap (emitLine p),
          (scan (buffer ++ cs.flatten)).2)
  | [], buffer, h => by
    simp [runChunks, h]
  | c :: cs, buffer, h => by
    have hstable := scan_snd_stable (buffer ++ c)
    have ih := runChunks_eq_scan p cs (scan (buffer ++ c)).2 hstable
    have happ := scan_append (buffer ++ c) cs.flatten
    simp only [runChunks, stepChunk, ih, List.flatten_cons, ← List.append_assoc,
      happ, List.filterMap_append]

/-- Decoding depends only on the concatenation of the chunks. -/
theorem decode_eq_of_flatten_eq (p : List Char → Option StreamChunk)
    (cs₁ cs₂ : List (List Char)) (h : cs₁.flatten = cs₂.flatten) :
    decode p cs₁ = decode p cs₂ := by
  unfold decode
  rw [runChunks_eq_scan p cs₁ [] rfl, runChunks_eq_scan p cs₂ [] rfl, h]

/-! ## Record framing lemmas (for the malformed-record property)

A record line that contains no newline character, followed by the blank-line
delimiter, is recovered as one complete piece of the split. -/

/-- Prepending a newline-free record line and its `\n\n` delimiter to a
stream makes the line the first complete piece. -/
theorem scan_record : ∀ (l : List Char), '\n' ∉ l → ∀ rest : List Char,
    scan (l ++ '\n' :: '\n' :: rest) = (l :: (scan rest).1, (scan rest).2)
  | [], _, rest => by
    rw [List.nil_append, scan_cons₂, if_pos ⟨rfl, rfl⟩]
  | c :: l', hnl, rest => by
    have hc : c ≠ '\n' := fun hc => hnl (hc ▸ List.mem_cons_self c l')
    have ih := scan_record l' (fun hm => hnl (List.mem_cons_of_mem c hm)) rest
    cases l' with
    | nil =>
      rw [List.cons_append, List.nil_append, scan_cons₂,
        if_neg (fun h => hc h.1)]
      rw [List.nil_append] at ih
      rw [ih]
    | cons d l'' =>
      rw [List.cons_append, List.cons_append, scan_cons₂,
        if_neg (fun h => hc h.1), ← List.cons_append, ih]

/-- A whole well-formed stream: every record line followed by `\n\n`.
Splitting it yields exactly the record lines, with an empty remainder. -/
theorem scan_records : ∀ (ls : List (List Char)), (∀ l ∈ ls, '\n' ∉ l) →
    scan ((ls.map (fun l => l ++ ['\n', '\n'])).flatten) = (ls, [])
  | [], _ => rfl
  | l :: ls, h => by
    have ih := scan_records ls (fun x hx => h x (List.mem_cons_of_mem l hx))
    rw [List.map_cons, List.flatten_cons, List.append_assoc]
    have : (['\n', '\n'] : List Char) ++
        (ls.map (fun l => l ++ ['\n', '\n'])).flatten =
        '\n' :: '\n' :: (ls.map (fun l => l ++ ['\n', '\n'])).flatten := rfl
    rw [this, scan_record l (h l (List.mem_cons_self l ls)), ih]

/-! ### Broker lemmas -/

theorem lookupKV_eraseKV {α : Type} (k : String) (m : List (String × α)) :
    lookupKV k (eraseKV k m) = none := by
  have h : (eraseKV k m).find? (fun p => p.1 == k) = none := by
    rw [List.find?_eq_none]
    intro p hp
    have h2 := (List.mem_filter.mp hp).2
    simpa using h2
  simp [lookupKV, h]

/-- A pending id is never a member of the registry it was just filtered
out of. -/
theorem not_mem_filter_bne (pid : String) (l : List String) :
    pid ∉ l.filter (fun x => x != pid) := by
  intro h
  have := (List.mem_filter.mp h).2
  simp at this

/-- `completeNewSession` for an unregistered pending id leaves the state
untouched. -/
theorem completeNewSession_not_active {pid rid : String}
    {msgs : List Message} {st : SessionState}
    (h : pid ∉ st.activeNewSessionStreams) :
    completeNewSession pid rid msgs st = st := by
  simp [completeNewSession, h]

/-- `handleNewSessionComplete` for an unregistered pending id leaves the
state untouched. -/
theorem handleNewSessionComplete_not_active {pid rid : String}
    {st : SessionState} (h : pid ∉ st.activeNewSessionStreams) :
    handleNewSessionComplete pid rid st = st := by
  simp [handleNewSessionComplete, h]

/-- After `completeNewSession` runs for a registered pending id, that id
is no longer registered. -/
theorem completeNewSession_unregisters {pid rid : String}
    {msgs : List Message} {st : SessionState}
    (h : pid ∈ st.activeNewSessionStreams) :
    (completeNewSession pid rid msgs st).activeNewSessionStreams =
      st.activeNewSessionStreams.filter (fun x => x != pid) := by
  simp only [completeNewSession, if_pos h, refreshSessions,
    clearPendingSession, mapPendingToReal, cacheMessages]
  split <;> rfl

/-- `completeNewSession` for a registered pending id clears the Pending
Session Slot unconditionally. -/
theorem completeNewSession_clears_slot {pid rid : String}
    {msgs : List Message} {st : SessionState}
    (h : pid ∈ st.activeNewSessionStreams) :
    (completeNewSession pid rid msgs st).pendingSession = none := by
  simp only [completeNewSession, if_pos h, refreshSessions,
    clearPendingSession, mapPendingToReal, cacheMessages]

/-- A `data: `-prefixed line is emitted exactly when its body parses. -/
theorem emitLine_dataMarker (p : List Char → Option StreamChunk)
    (b : List Char) : emitLine p (dataMarker ++ b) = p b := rfl

/-- Well-formed record lines all emit their parsed events, in order. -/
theorem filterMap_emit_records (p : List Char → Option StreamChunk) :
    ∀ rs : List (List Char × StreamChunk),
      (∀ r ∈ rs, p r.1 = some r.2) →
      (rs.map (fun r => dataMarker ++ r.1)).filterMap (emitLine p) =
        rs.map (fun r => r.2)
  | [], _ => rfl
  | r :: rs, h => by
    have ih := filterMap_emit_records p rs
      (fun x hx => h x (List.mem_cons_of_mem r hx))
    simp only [List.map_cons, List.filterMap_cons, emitLine_dataMarker,
      h r (List.mem_cons_self r rs), ih]

/-! ## Claims -/

/-- C1.  End-to-end new-session resolution: submitting a turn with no
target session id registers pending id `pending-1` in the Active Stream
Registry and sets the Pending Session Slot to a descriptor with that id;
after the stream yields `content "Hi"` and then `done` with
`session_id = "S9"`, the slot is cleared, `lookup(pending-1) = "S9"`, and
the Refresh Bus has been published exactly once — not zero times and not
twice, although both the component's `completeNewSession` call and the
service-level `handleNewSessionComplete` callback run for the `done`
event. -/
theorem claim_C1 :
    submitA.2 = some { isNewSession := true,
                       pendingSessionId := some "pending-1" } ∧
    submitA.1.sess.activeNewSessionStreams = ["pending-1"] ∧
    submitA.1.sess.pendingSession.map Session.id = some "pending-1" ∧
    scenarioA.sess.pendingSession = none ∧
    getRealSessionId "pending-1" scenarioA.sess = some "S9" ∧
    scenarioA.sess.refreshCount = 1 := by decide

/-- C2.  Teardown survival: when the initiating view is destroyed after the
`content` event and before `done`, the `done` event still executes the
resolution — the pending→real mapping is recorded, the Pending Session Slot
is cleared and the Refresh Bus is published once — because a new-session
turn's subscription is not severed by `destroy$` and the decode loop lives
in the service. -/
theorem claim_C2 :
    (destroyComponent
      (deliverChunk turnA 2 submitA.1 contentHi)).comp.destroyed = true ∧
    getRealSessionId "pending-1" scenarioB.sess = some "S9" ∧
    scenarioB.sess.pendingSession = none ∧
    scenarioB.sess.refreshCount = 1 := by decide

/-- C3 counterexample.  Protocol `error` events are not terminal in the
code: in scenario D the turn owns the Pending Session Slot
(`currentPendingId = pending-1` = the slot's id), yet after the `error`
event and stream close the slot is NOT cleared, and the in-progress
assistant message is finalized by the `complete` handler as a normal
message (`isStreaming := false`), not frozen as failed — contradicting the
claim. -/
theorem claim_C3_counterexample :
    scenarioD.comp.currentPendingId = some "pending-1" ∧
    scenarioD.sess.pendingSession.map Session.id = some "pending-1" ∧
    scenarioD.sess.pendingSession ≠ none ∧
    scenarioD.comp.messages.getLast?.map
      (fun m => (m.role, m.content, m.isStreaming)) =
      some (Role.assistant, "Hi", some false) := by decide

/-- C3 amended.  An `error` event is only logged (`case 'error'` does
nothing); the transcript accumulated so far is preserved and, when the
stream closes, finalized as a normal successful message; the Pending
Session Slot owned by the turn is left set, the Refresh Bus is not
published, and no entry is added to the Message Cache. -/
theorem claim_C3 :
    scenarioD.comp.messages.getLast?.map
      (fun m => (m.role, m.content, m.isStreaming)) =
      some (Role.assistant, "Hi", some false) ∧
    scenarioD.comp.streamingMessage = none ∧
    scenarioD.sess.cachedMessages = [] ∧
    scenarioD.sess.refreshCount = 0 ∧
    scenarioD.sess.pendingSession = submitA.1.sess.pendingSession := by decide

/-- C4 counterexample.  `completeNewSession` does not test the slot's id:
with `pending-1` registered and the Pending Session Slot holding a
descriptor for the different id `pending-2`, resolving `pending-1` clears
the slot — the claim says such a slot is left unchanged. -/
theorem claim_C4_counterexample :
    hasActiveStream "pending-1" stSlotOther = true ∧
    stSlotOther.pendingSession.map Session.id = some "pending-2" ∧
    (completeNewSession "pending-1" "S1" [] stSlotOther).pendingSession ≠
      stSlotOther.pendingSession := by decide

/-- C4 amended.  When `resolve(pendingId, …)` runs for a registered
pendingId it clears the Pending Session Slot unconditionally, whatever the
slot's id (`clearPendingSession()` is called with no id comparison). -/
theorem claim_C4 (pid rid : String) (msgs : List Message)
    (st : SessionState) (h : hasActiveStream pid st = true) :
    (completeNewSession pid rid msgs st).pendingSession = none := by
  have hmem : pid ∈ st.activeNewSessionStreams := by
    simpa [hasActiveStream] using h
  exact completeNewSession_clears_slot hmem

/-- Witness for C4 on the counterexample state. -/
theorem claim_C4_witness :
    hasActiveStream "pending-1" stSlotOther = true ∧
    (completeNewSession "pending-1" "S1" [] stSlotOther).pendingSession =
      none :=
  ⟨by decide, claim_C4 "pending-1" "S1" [] stSlotOther (by decide)⟩

/-- C5.  `resolve` for a pendingId that is not registered in the Active
Stream Registry is a complete no-op, on both resolution paths
(`completeNewSession` and the service callback `handleNewSessionComplete`):
the state — mapping, Refresh Bus count, Message Cache and Pending Session
Slot — is returned unchanged, and being a total function it raises no
exception. -/
theorem claim_C5 (pid rid : String) (msgs : List Message)
    (st : SessionState) (h : hasActiveStream pid st = false) :
    completeNewSession pid rid msgs st = st ∧
    handleNewSessionComplete pid rid st = st := by
  have hmem : pid ∉ st.activeNewSessionStreams := by
    simpa [hasActiveStream] using h
  exact ⟨completeNewSession_not_active hmem,
    handleNewSessionComplete_not_active hmem⟩

/-- Witness for C5: resolving an unregistered id on a nonempty state. -/
theorem claim_C5_witness :
    hasActiveStream "pending-9" stSlotOther = false ∧
    completeNewSession "pending-9" "S1" [] stSlotOther = stSlotOther :=
  ⟨by decide,
    (claim_C5 "pending-9" "S1" [] stSlotOther (by decide)).1⟩

/-- C6.  Idempotence of `resolve`: for a pendingId registered before the
first call, a second identical call leaves the state produced by the first
call completely unchanged — in particular the Refresh Bus is not
re-published, the Pending Session Slot clearing is not duplicated and the
pending→real mapping is not corrupted — because the first call removes the
id from the Active Stream Registry and the second call's guard then makes
it a no-op. -/
theorem claim_C6 (pid rid : String) (msgs : List Message)
    (st : SessionState) (h : hasActiveStream pid st = true) :
    completeNewSession pid rid msgs (completeNewSession pid rid msgs st) =
      completeNewSession pid rid msgs st := by
  have hmem : pid ∈ st.activeNewSessionStreams := by
    simpa [hasActiveStream] using h
  apply completeNewSession_not_active
  rw [completeNewSession_unregisters hmem]
  exact not_mem_filter_bne pid _

/-- Witness for C6 on the counterexample state. -/
theorem claim_C6_witness :
    hasActiveStream "pending-1" stSlotOther = true ∧
    completeNewSession "pending-1" "S1" []
        (completeNewSession "pending-1" "S1" [] stSlotOther) =
      completeNewSession "pending-1" "S1" [] stSlotOther :=
  ⟨by decide, claim_C6 "pending-1" "S1" [] stSlotOther (by decide)⟩

/-- C7.  Chunk-boundary invariance of the Stream Decoder: for every
record-body parser and any two chunkings of the same character stream, the
decoder emits the same ordered event sequence — a record split across
chunks is buffered until its blank-line delimiter arrives, and several
complete records in one chunk are emitted one by one in order. -/
theorem claim_C7 (p : List Char → Option StreamChunk)
    (cs₁ cs₂ : List (List Char)) (h : cs₁.flatten = cs₂.flatten) :
    decode p cs₁ = decode p cs₂ :=
  decode_eq_of_flatten_eq p cs₁ cs₂ h

/-- Witness for C7: one record split across three chunks plus a second
record sharing a chunk, against the single-chunk delivery. -/
theorem claim_C7_witness :
    ["data: 1\n".toList, "\nda".toList, "ta: 2\n\n".toList].flatten =
      ["data: 1\n\ndata: 2\n\n".toList].flatten ∧
    decode parse₀ ["data: 1\n".toList, "\nda".toList, "ta: 2\n\n".toList] =
      decode parse₀ ["data: 1\n\ndata: 2\n\n".toList] :=
  ⟨by decide,
    claim_C7 parse₀ ["data: 1\n".toList, "\nda".toList, "ta: 2\n\n".toList]
      ["data: 1\n\ndata: 2\n\n".toList] (by decide)⟩

/-- C8.  Malformed-record recovery: a stream consisting of one record whose
body fails to parse followed by N records whose bodies parse (each record a
newline-free payload line prefixed by the `data: ` marker and terminated by
the blank-line delimiter) decodes to exactly the N parsed events, in order,
with no gap markers: the parse failure is skipped, not fatal. -/
theorem claim_C8 (p : List Char → Option StreamChunk) (mb : List Char)
    (rs : List (List Char × StreamChunk))
    (hmb : p mb = none) (hmbNL : '\n' ∉ mb)
    (hrs : ∀ r ∈ rs, p r.1 = some r.2 ∧ '\n' ∉ r.1) :
    decode p
      [((((dataMarker ++ mb) :: rs.map (fun r => dataMarker ++ r.1)).map
        (fun l => l ++ ['\n', '\n'])).flatten)] =
      rs.map (fun r => r.2) := by
  have hNoNL : ∀ l ∈ (dataMarker ++ mb) ::
      rs.map (fun r => dataMarker ++ r.1), '\n' ∉ l := by
    intro l hl
    have hmark : '\n' ∉ dataMarker := by decide
    rcases List.mem_cons.mp hl with h | h
    · subst h
      intro hmem
      rcases List.mem_append.mp hmem with h' | h'
      · exact hmark h'
      · exact hmbNL h'
    · rcases List.mem_map.mp h with ⟨r, hr, rfl⟩
      intro hmem
      rcases List.mem_append.mp hmem with h' | h'
      · exact hmark h'
      · exact (hrs r hr).2 h'
  have hscan := scan_records _ hNoNL
  unfold decode
  rw [runChunks_eq_scan p _ [] rfl]
  simp only [List.flatten_cons, List.flatten_nil, List.append_nil,
    List.nil_append, hscan]
  simp only [List.filterMap_cons, emitLine_dataMarker, hmb]
  exact filterMap_emit_records p rs (fun r hr => (hrs r hr).1)

/-- Witness for C8: malformed body `"x"` followed by two records that
parse. -/
theorem claim_C8_witness :
    (parse₀ ['x'] = none ∧ ('\n' ∉ ['x']) ∧
      (∀ r ∈ [(['1'],
          ({ type := ChunkType.content, content := some "one" } :
            StreamChunk)),
        (['2'], ({ type := ChunkType.done } : StreamChunk))],
        parse₀ r.1 = some r.2 ∧ '\n' ∉ r.1)) ∧
    decode parse₀
      [((((dataMarker ++ ['x']) ::
        ([(['1'],
            ({ type := ChunkType.content, content := some "one" } :
              StreamChunk)),
          (['2'], ({ type := ChunkType.done } : StreamChunk))].map
          (fun r => dataMarker ++ r.1))).map
        (fun l => l ++ ['\n', '\n'])).flatten)] =
      [{ type := ChunkType.content, content := some "one" },
       { type := ChunkType.done }] :=
  ⟨⟨by decide, by decide, by decide⟩,
    claim_C8 parse₀ ['x']
      [(['1'],
        ({ type := ChunkType.content, content := some "one" } :
          StreamChunk)),
       (['2'], ({ type := ChunkType.done } : StreamChunk))]
      (by decide) (by decide) (by decide)⟩

/-- C9.  Per-agent content attribution: on a fresh turn, the events
`agent_start("Researcher")`, `content("foo")`, `agent_start("Writer")`,
`content("bar")`, `done()` leave per-agent buffers
`[Researcher ↦ "foo", Writer ↦ "bar"]` and aggregate buffer `"foobar"`:
each content delta goes to the aggregate buffer and to the most recently
started agent's buffer. -/
theorem claim_C9 :
    scenarioC.comp.streamingMessage.map
      (fun m => (m.agentResponses, m.content)) =
      some (some [{ agentName := "Researcher", content := "foo" },
                  { agentName := "Writer", content := "bar" }],
        "foobar") := by decide

/-- C10.  The pending→real mapping is single-use through the redirect path:
when `loadSession` runs for a pending-id route whose id has been resolved,
it deletes the mapping entry (`clearPendingMapping`) before navigating to
the real id, so a subsequent `lookup` of that pending id returns absent. -/
theorem claim_C10 (st : SessionState) (pid rid : String)
    (h1 : getRealSessionId pid st = some rid) (h2 : rid ≠ "")
    (h3 : jsStartsWith pid "pending-" = true) :
    (loadSessionPending st pid).2 = some rid ∧
    getRealSessionId pid (loadSessionPending st pid).1 = none := by
  unfold loadSessionPending
  simp only [h3, h1, if_true, jsTruthy]
  rw [if_pos (by simpa using h2)]
  exact ⟨rfl, by
    simp [getRealSessionId, clearPendingMapping, lookupKV_eraseKV]⟩

/-- Witness for C10: a resolved `pending-1 ↦ S9` mapping. -/
theorem claim_C10_witness :
    (getRealSessionId "pending-1"
        { pendingToRealMap := [("pending-1", "S9")] } = some "S9" ∧
      ("S9" : String) ≠ "" ∧
      jsStartsWith "pending-1" "pending-" = true) ∧
    (loadSessionPending { pendingToRealMap := [("pending-1", "S9")] }
        "pending-1").2 = some "S9" ∧
    getRealSessionId "pending-1"
      (loadSessionPending { pendingToRealMap := [("pending-1", "S9")] }
        "pending-1").1 = none :=
  ⟨⟨by decide, by decide, by decide⟩,
    claim_C10 { pendingToRealMap := [("pending-1", "S9")] } "pending-1" "S9"
      (by decide) (by decide) (by decide)⟩

end AgentChat
